import Mathlib

/-!
Verification of the page-fault handling path of a Pintos kernel
(src/userprog/exception.c), against its design specification.

The embedding translates `page_fault` and its helper functions
(`exit_if_user_access_in_kernel`, `write_on_nonwritable_page`,
`bring_esp_from_thread_struct`) into pure Lean functions.  Virtual
addresses, stack pointers and frame addresses are natural numbers;
32-bit pointer arithmetic is made explicit where it matters (the
`esp - 32` margin computation).

Collaborators that live outside the excerpted file — the frame
allocator (`frame_alloc`), hardware page-table installer
(`install_page`), supplemental-page-table hash (`ptable_lookup`,
`ptable_insert`), and the backing-store loaders (`page_load_file`,
`page_load_swap`) — are modelled at their interface boundary: success
or failure of each call is an oracle supplied by an `Env` record, and
the SPT itself is a list of entries keyed by page-aligned address
(the spec: a per-process mapping from user virtual page to a page
descriptor, insert rejected when the page already exists).
-/

namespace PintosVM

/-- Page size in bytes (PGSIZE in threads/vaddr.h). -/
def PGSIZE : Nat := 4096

/-- Base of the kernel's reserved virtual-address range
(PHYS_BASE = 0xC0000000 in threads/loader.h). -/
def PHYS_BASE : Nat := 0xC0000000

/-- `#define STACK_LIMIT 8 * 1024 * 1024` — maximum stack size (8 MiB),
line 10 of exception.c. -/
def STACK_LIMIT : Nat := 8 * 1024 * 1024

/-- `is_user_vaddr(vaddr)`: the address lies strictly below PHYS_BASE. -/
def is_user_vaddr (a : Nat) : Bool := decide (a < PHYS_BASE)

/-- `is_kernel_vaddr(vaddr)`: the address lies at or above PHYS_BASE. -/
def is_kernel_vaddr (a : Nat) : Bool := decide (PHYS_BASE ≤ a)

/-- `pg_round_down(va)`: round a virtual address down to a page boundary. -/
def pg_round_down (a : Nat) : Nat := a / PGSIZE * PGSIZE

/-- The expression `f->esp - 32` of exception.c line 209: 32-bit pointer
arithmetic, i.e. subtraction modulo 2^32 (4294967296). -/
def esp_minus_32 (e : Nat) : Nat := (e + 4294967296 - 32) % 4294967296

/-- A supplemental page-table entry (`struct page` of vm/page.h; the
struct definition is not part of the excerpt, so the fields are the
ones exception.c reads and writes: `upage`, `writable`, `loaded`,
`swaped`, `file`).  `loaded` is the spec's `resident`; `swaped` marks a
swap backing; `file = none` together with `swaped = false` is the
zero-fill backing (the stack-growth path creates its entries with
`file = NULL`).  exception.c leaves `swaped` unassigned on the entries
it mallocs (lines 225-231 set only `upage`, `writable`, `loaded` and
`file`), so for those entries the field holds whatever value malloc
left in memory; the model makes that explicit via `Env.junk_swaped`. -/
structure SPTPage where
  upage : Nat
  writable : Bool
  loaded : Bool
  swaped : Bool
  file : Option Nat
deriving DecidableEq

/-- A hardware mapping installed via `install_page(upage, kpage,
writable)`.  `zeroed` records that the backing frame came from
`frame_alloc(PAL_USER | PAL_ZERO)`, i.e. was zero-filled on allocation
(the only flag combination the stack-growth path uses). -/
structure Mapping where
  upage : Nat
  kpage : Nat
  writable : Bool
  zeroed : Bool
deriving DecidableEq

/-- `ptable_lookup(addr)` of vm/page.c (not under src/).  Modelled from
the spec: the SPT maps each page-aligned user virtual page to its
entry, so lookup keys on the page containing the argument address. -/
def ptable_lookup (spt : List SPTPage) (a : Nat) : Option SPTPage :=
  spt.find? (fun e => e.upage == pg_round_down a)

/-- Oracles for the external collaborators consumed by the handler.
`frame_alloc`, `install` and `insert_ok` are indexed by the user page
being processed so that distinct calls of one walk may succeed or fail
independently; `thread_esp` is `thread_current()->esp`, the stack
pointer saved at the latest user-to-kernel transition; `junk_swaped p`
is the indeterminate value the uninitialized `swaped` field of the
entry malloc'd for page `p` happens to hold — exception.c never
assigns that field, so its value is whatever garbage malloc left. -/
structure Env where
  frame_alloc : Nat → Option Nat
  install : Nat → Bool
  insert_ok : Nat → Bool
  load_swap : SPTPage → Bool
  load_file : SPTPage → Bool
  thread_esp : Nat
  junk_swaped : Nat → Bool

/-- The classified fault record: CR2 plus the PF_P / PF_W / PF_U bits
of the hardware error code, and the trap frame's `esp`. -/
structure Fault where
  addr : Nat
  not_present : Bool
  write : Bool
  user : Bool
  esp : Nat
deriving DecidableEq

/-- Terminal behaviour of one run of the handler.
`resumed`: the handler returns with `success` true and the faulting
instruction restarts; `killed`: `kill (f)` is reached (the generic
diagnostic kill path); `exited s`: `system_exit(s)` is called;
`nullDeref`: the handler dereferences a null `struct page *`. -/
inductive Outcome where
  | resumed
  | killed
  | exited (status : Int)
  | nullDeref
deriving DecidableEq

/-- Result of the stack-growth loop of `page_fault`
(exception.c lines 210-239). -/
structure WalkOut where
  success : Bool
  spt : List SPTPage
  maps : List Mapping
deriving DecidableEq

/-- Result of the body of `page_fault`: outcome, final SPT, installed
mappings, and the final value of the trap frame's `esp` field. -/
structure PFOut where
  outcome : Outcome
  spt : List SPTPage
  maps : List Mapping
  esp : Nat
deriving DecidableEq

/-- State threaded through handler invocations: the SPT, the installed
mappings, and the global `page_fault_cnt` diagnostic counter. -/
structure VMState where
  spt : List SPTPage
  maps : List Mapping
  cnt : Nat
deriving DecidableEq

/-- Handler result: `PFOut` plus the updated fault counter. -/
structure HResult where
  outcome : Outcome
  spt : List SPTPage
  maps : List Mapping
  esp : Nat
  cnt : Nat
deriving DecidableEq

/-- `exit_if_user_access_in_kernel(fault_addr, user)` (lines 263-269):
returns true when the handler calls `system_exit(-1)` because a
user-context access touched a kernel address. -/
def exit_if_user_access_in_kernel (addr : Nat) (user : Bool) : Bool :=
  is_kernel_vaddr addr && user

/-- `write_on_nonwritable_page(fault_addr, not_present, write)`
(lines 280-289): `some o` when the call does not return normally —
`system_exit(-1)` on a write to a non-writable present page, or a null
dereference when the lookup finds no entry (the code dereferences the
lookup result unconditionally). -/
def write_on_nonwritable_page (spt : List SPTPage) (addr : Nat)
    (not_present write : Bool) : Option Outcome :=
  if is_user_vaddr addr && !not_present && write then
    match ptable_lookup spt addr with
    | none => some .nullDeref
    | some p => if !p.writable then some (.exited (-1)) else none
  else none

/-- `bring_esp_from_thread_struct(user, not_present, f)`
(lines 271-278): the trap frame's `esp` after the kernel stack-pointer
recovery step. -/
def bring_esp_from_thread_struct (user not_present : Bool)
    (esp thread_esp : Nat) : Nat :=
  if !user && not_present && decide (esp ≤ PHYS_BASE - STACK_LIMIT) then
    thread_esp
  else esp

/-- The stack-growth loop of `page_fault` (lines 210-239), unrolled on
the number `k` of remaining iterations; `p` is `stack_page_addr` and
`b` the current value of `success`.  Each iteration: skip the page if
`ptable_lookup` finds it; otherwise `frame_alloc(PAL_USER|PAL_ZERO)` —
on failure `success` is left unchanged and the loop continues; on
success `success = install_page(p, kpage, true)`, and if that installed,
a new entry `{upage = p, writable = true, loaded = true, file = NULL}`
is built and `ptable_insert`ed, `success` being cleared if insertion
fails.  The entry's `swaped` field is never assigned by the code, so
the model fills it with the indeterminate `env.junk_swaped p`.  The
loop always advances to the next higher page. -/
def stack_walk (env : Env) : Nat → List SPTPage → List Mapping → Nat → Bool → WalkOut
  | 0, spt, maps, _, b => ⟨b, spt, maps⟩
  | k + 1, spt, maps, p, b =>
    if (ptable_lookup spt p).isSome then
      stack_walk env k spt maps (p + PGSIZE) b
    else
      match env.frame_alloc p with
      | none => stack_walk env k spt maps (p + PGSIZE) b
      | some kp =>
        if env.install p then
          let e : SPTPage := ⟨p, true, true, env.junk_swaped p, none⟩
          let maps' : List Mapping := ⟨p, kp, true, true⟩ :: maps
          if env.insert_ok p then
            stack_walk env k (e :: spt) maps' (p + PGSIZE) true
          else
            stack_walk env k spt maps' (p + PGSIZE) false
        else
          stack_walk env k spt maps (p + PGSIZE) false

/-- Number of iterations of the stack-growth loop started at
page-aligned address `p0`: the loop runs while
`stack_page_addr < PHYS_BASE - PGSIZE`. -/
def walk_len (p0 : Nat) : Nat := (PHYS_BASE - PGSIZE - p0) / PGSIZE

/-- The remainder of `page_fault` after the write-protection check:
the stack-pointer recovery step, then the resolution dispatch of
lines 191-246, then the `if (!success)` kill of lines 251-259. -/
def pf_rest (env : Env) (spt : List SPTPage) (maps : List Mapping)
    (f : Fault) : PFOut :=
  let esp := bring_esp_from_thread_struct f.user f.not_present f.esp env.thread_esp
  if is_user_vaddr f.addr && f.not_present then
    match ptable_lookup spt f.addr with
    | some p =>
      if !p.loaded then
        let ok := if p.swaped then env.load_swap p else env.load_file p
        ⟨if ok then .resumed else .killed, spt, maps, esp⟩
      else ⟨.killed, spt, maps, esp⟩
    | none =>
      if decide (esp_minus_32 esp ≤ f.addr)
          && decide (PHYS_BASE - STACK_LIMIT ≤ f.addr) then
        let p0 := pg_round_down f.addr
        let r := stack_walk env (walk_len p0) spt maps p0 false
        ⟨if r.success then .resumed else .killed, r.spt, r.maps, esp⟩
      else ⟨.exited (-1), spt, maps, esp⟩
  else ⟨.killed, spt, maps, esp⟩

/-- The body of `page_fault` (lines 136-260) apart from the fault
counter: the three helper calls in source order, then resolution. -/
def pf_core (env : Env) (spt : List SPTPage) (maps : List Mapping)
    (f : Fault) : PFOut :=
  if exit_if_user_access_in_kernel f.addr f.user then
    ⟨.exited (-1), spt, maps, f.esp⟩
  else
    match write_on_nonwritable_page spt f.addr f.not_present f.write with
    | some o => ⟨o, spt, maps, f.esp⟩
    | none => pf_rest env spt maps f

/-- `page_fault(f)`: increments `page_fault_cnt` (line 161) and runs
the handler body. -/
def page_fault (env : Env) (s : VMState) (f : Fault) : HResult :=
  let r := pf_core env s.spt s.maps f
  ⟨r.outcome, r.spt, r.maps, r.esp, s.cnt + 1⟩

/-- A page for which one loop iteration of the stack-growth walk fully
succeeds: the frame allocator returns a frame, `install_page` succeeds,
and `ptable_insert` succeeds. -/
def fullSuccess (env : Env) (p : Nat) : Prop :=
  (env.frame_alloc p).isSome = true ∧ env.install p = true ∧ env.insert_ok p = true

instance (env : Env) (p : Nat) : Decidable (fullSuccess env p) := by
  unfold fullSuccess; infer_instance

/-- Modelled from the spec: the frame content produced by the
Backing-Store Loader's non-swap entry point (`page_load_file` of
vm/page.c, which is not under src/) — for a file-backed entry it reads
from the file offset and zero-fills the remainder, and for an entry
with no backing file (zero-fill backing) the whole frame is zeroed. -/
inductive FrameContent where
  | zeroed
  | fromFile (handle : Nat)
deriving DecidableEq

/-- Modelled from the spec: content placed into the acquired frame by
the non-swap loader, as a function of the entry's backing. -/
def page_load_file_content (p : SPTPage) : FrameContent :=
  match p.file with
  | none => .zeroed
  | some h => .fromFile h

/-! ### Concrete environments and states used as witnesses -/

/-- An environment in which every external call succeeds and malloc
happens to hand out zeroed memory (`junk_swaped` reads as false). -/
def envOK : Env :=
  { frame_alloc := fun _ => some 0x100000
    install := fun _ => true
    insert_ok := fun _ => true
    load_swap := fun _ => true
    load_file := fun _ => true
    thread_esp := 0xBFFF0000
    junk_swaped := fun _ => false }

/-- Like `envOK`, except malloc hands out memory whose residual bits
make the uninitialized `swaped` field read as true. -/
def envJunk : Env := { envOK with junk_swaped := fun _ => true }

/-- An environment whose frame allocator fails exactly at user page
0xBFFFD000 and succeeds everywhere else. -/
def envAllocFail : Env :=
  { envOK with
    frame_alloc := fun p => if p == 0xBFFFD000 then none else some 0x200000 }

/-- An environment whose frame allocator always fails. -/
def envNoAlloc : Env := { envOK with frame_alloc := fun _ => none }

/-- The empty initial state. -/
def st0 : VMState := ⟨[], [], 0⟩

/-- A state whose SPT holds one writable resident code page. -/
def stCode : VMState := ⟨[⟨0x08048000, true, true, false, none⟩], [], 0⟩

/-- A state whose SPT holds one resident stack page at 0xBFFFD000,
leaving holes both below and above it. -/
def stMid : VMState := ⟨[⟨0xBFFFD000, true, true, false, none⟩], [], 0⟩

/-! ### Basic lemmas about the address helpers and the SPT model -/

theorem user_not_kernel {a : Nat} (h : is_user_vaddr a = true) :
    is_kernel_vaddr a = false := by
  simp only [is_user_vaddr, decide_eq_true_eq] at h
  simp only [is_kernel_vaddr, decide_eq_false_iff_not]
  omega

theorem pg_round_down_idem (a : Nat) :
    pg_round_down (pg_round_down a) = pg_round_down a := by
  simp only [pg_round_down, PGSIZE]
  omega

theorem pg_round_down_aligned_add {p : Nat} (i : Nat)
    (h : pg_round_down p = p) :
    pg_round_down (p + i * PGSIZE) = p + i * PGSIZE := by
  simp only [pg_round_down, PGSIZE] at *
  omega

theorem ptable_lookup_congr {a b : Nat} (spt : List SPTPage)
    (h : pg_round_down a = pg_round_down b) :
    ptable_lookup spt a = ptable_lookup spt b := by
  simp [ptable_lookup, h]

theorem ptable_lookup_cons_ne {e : SPTPage} {q : Nat} (spt : List SPTPage)
    (h : e.upage ≠ pg_round_down q) :
    ptable_lookup (e :: spt) q = ptable_lookup spt q := by
  simp [ptable_lookup, List.find?_cons, beq_eq_false_iff_ne.mpr h]

theorem ptable_lookup_cons_self {e : SPTPage} {q : Nat} (spt : List SPTPage)
    (h : e.upage = pg_round_down q) :
    ptable_lookup (e :: spt) q = some e := by
  simp [ptable_lookup, List.find?_cons, beq_iff_eq.mpr h]

theorem esp_minus_32_eq {e : Nat} (h32 : 32 ≤ e) (hlt : e < 4294967296) :
    esp_minus_32 e = e - 32 := by
  simp only [esp_minus_32]
  omega

/-! ### Lemmas about the stack-growth walk -/

theorem stack_walk_mono_spt (env : Env) :
    ∀ (k : Nat) (spt : List SPTPage) (maps : List Mapping) (p : Nat)
      (b : Bool) {e : SPTPage}, e ∈ spt →
      e ∈ (stack_walk env k spt maps p b).spt := by
  intro k
  induction k with
  | zero => intro spt maps p b e he; exact he
  | succ k ih =>
    intro spt maps p b e he
    simp only [stack_walk]
    split
    · exact ih _ _ _ _ he
    · cases env.frame_alloc p with
      | none => exact ih _ _ _ _ he
      | some kp =>
        by_cases hinst : env.install p = true
        · simp only [hinst, if_true]
          by_cases hins : env.insert_ok p = true
          · simp only [hins, if_true]
            exact ih _ _ _ _ (List.mem_cons_of_mem _ he)
          · simp only [Bool.not_eq_true] at hins
            simp only [hins, Bool.false_eq_true, if_false]
            exact ih _ _ _ _ he
        · simp only [Bool.not_eq_true] at hinst
          simp only [hinst, Bool.false_eq_true, if_false]
          exact ih _ _ _ _ he

theorem stack_walk_mono_maps (env : Env) :
    ∀ (k : Nat) (spt : List SPTPage) (maps : List Mapping) (p : Nat)
      (b : Bool) {m : Mapping}, m ∈ maps →
      m ∈ (stack_walk env k spt maps p b).maps := by
  intro k
  induction k with
  | zero => intro spt maps p b m hm; exact hm
  | succ k ih =>
    intro spt maps p b m hm
    simp only [stack_walk]
    split
    · exact ih _ _ _ _ hm
    · cases env.frame_alloc p with
      | none => exact ih _ _ _ _ hm
      | some kp =>
        by_cases hinst : env.install p = true
        · simp only [hinst, if_true]
          by_cases hins : env.insert_ok p = true
          · simp only [hins, if_true]
            exact ih _ _ _ _ (List.mem_cons_of_mem _ hm)
          · simp only [Bool.not_eq_true] at hins
            simp only [hins, Bool.false_eq_true, if_false]
            exact ih _ _ _ _ (List.mem_cons_of_mem _ hm)
        · simp only [Bool.not_eq_true] at hinst
          simp only [hinst, Bool.false_eq_true, if_false]
          exact ih _ _ _ _ hm

theorem stack_walk_all_present (env : Env) :
    ∀ (k : Nat) (spt : List SPTPage) (maps : List Mapping) (p : Nat)
      (b : Bool),
      (∀ i, i < k → (ptable_lookup spt (p + i * PGSIZE)).isSome = true) →
      stack_walk env k spt maps p b = ⟨b, spt, maps⟩ := by
  intro k
  induction k with
  | zero => intro spt maps p b _; rfl
  | succ k ih =>
    intro spt maps p b h
    have h0 := h 0 (by omega)
    rw [show p + 0 * PGSIZE = p by ring] at h0
    have hshift : ∀ i, i < k →
        (ptable_lookup spt (p + PGSIZE + i * PGSIZE)).isSome = true := by
      intro i hi
      have := h (i + 1) (by omega)
      rwa [show p + (i + 1) * PGSIZE = p + PGSIZE + i * PGSIZE by ring] at this
    simp only [stack_walk, h0, if_true]
    exact ih _ _ _ _ hshift

theorem stack_walk_flag_false (env : Env) :
    ∀ (k : Nat) (spt : List SPTPage) (maps : List Mapping) (p : Nat),
      (∀ i, i < k → ¬ fullSuccess env (p + i * PGSIZE)) →
      (stack_walk env k spt maps p false).success = false := by
  intro k
  induction k with
  | zero => intro spt maps p _; rfl
  | succ k ih =>
    intro spt maps p h
    have h0 := h 0 (by omega)
    rw [show p + 0 * PGSIZE = p by ring] at h0
    have hshift : ∀ i, i < k → ¬ fullSuccess env (p + PGSIZE + i * PGSIZE) := by
      intro i hi
      have := h (i + 1) (by omega)
      rwa [show p + (i + 1) * PGSIZE = p + PGSIZE + i * PGSIZE by ring] at this
    simp only [stack_walk]
    split
    · exact ih _ _ _ hshift
    · cases halloc : env.frame_alloc p with
      | none => exact ih _ _ _ hshift
      | some kp =>
        by_cases hinst : env.install p = true
        · have hins : env.insert_ok p = false := by
            by_contra hc
            simp only [Bool.not_eq_false] at hc
            exact h0 ⟨by simp [halloc], hinst, hc⟩
          simp only [hinst, if_true, hins, Bool.false_eq_true, if_false]
          exact ih _ _ _ hshift
        · simp only [Bool.not_eq_true] at hinst
          simp only [hinst, Bool.false_eq_true, if_false]
          exact ih _ _ _ hshift

theorem stack_walk_append (env : Env) :
    ∀ (a b : Nat) (spt : List SPTPage) (maps : List Mapping) (p : Nat)
      (s : Bool),
      stack_walk env (a + b) spt maps p s =
        stack_walk env b (stack_walk env a spt maps p s).spt
          (stack_walk env a spt maps p s).maps (p + a * PGSIZE)
          (stack_walk env a spt maps p s).success := by
  intro a
  induction a with
  | zero =>
    intro b spt maps p s
    simp [stack_walk]
  | succ a ih =>
    intro b spt maps p s
    rw [show a + 1 + b = (a + b) + 1 by omega]
    have harith : p + PGSIZE + a * PGSIZE = p + (a + 1) * PGSIZE := by ring
    simp only [stack_walk]
    split
    · rw [ih, harith]
    · cases env.frame_alloc p with
      | none => rw [ih, harith]
      | some kp =>
        by_cases hinst : env.install p = true
        · simp only [hinst, if_true]
          by_cases hins : env.insert_ok p = true
          · simp only [hins, if_true]
            rw [ih, harith]
          · simp only [Bool.not_eq_true] at hins
            simp only [hins, Bool.false_eq_true, if_false]
            rw [ih, harith]
        · simp only [Bool.not_eq_true] at hinst
          simp only [hinst, Bool.false_eq_true, if_false]
          rw [ih, harith]

theorem stack_walk_lookup_untouched (env : Env) :
    ∀ (k : Nat) (spt : List SPTPage) (maps : List Mapping) (p : Nat)
      (b : Bool) (q : Nat),
      (∀ i, i < k → p + i * PGSIZE ≠ pg_round_down q) →
      ptable_lookup (stack_walk env k spt maps p b).spt q =
        ptable_lookup spt q := by
  intro k
  induction k with
  | zero => intro spt maps p b q _; rfl
  | succ k ih =>
    intro spt maps p b q h
    have h0 := h 0 (by omega)
    rw [show p + 0 * PGSIZE = p by ring] at h0
    have hshift : ∀ i, i < k → p + PGSIZE + i * PGSIZE ≠ pg_round_down q := by
      intro i hi
      have := h (i + 1) (by omega)
      rwa [show p + (i + 1) * PGSIZE = p + PGSIZE + i * PGSIZE by ring] at this
    simp only [stack_walk]
    split
    · exact ih _ _ _ _ _ hshift
    · cases env.frame_alloc p with
      | none => exact ih _ _ _ _ _ hshift
      | some kp =>
        by_cases hinst : env.install p = true
        · simp only [hinst, if_true]
          by_cases hins : env.insert_ok p = true
          · simp only [hins, if_true]
            rw [ih _ _ _ _ _ hshift]
            exact ptable_lookup_cons_ne spt h0
          · simp only [Bool.not_eq_true] at hins
            simp only [hins, Bool.false_eq_true, if_false]
            exact ih _ _ _ _ _ hshift
        · simp only [Bool.not_eq_true] at hinst
          simp only [hinst, Bool.false_eq_true, if_false]
          exact ih _ _ _ _ _ hshift

theorem stack_walk_creates (env : Env) :
    ∀ (k : Nat) (spt : List SPTPage) (maps : List Mapping) (p : Nat)
      (b : Bool) (i : Nat),
      i < k → pg_round_down p = p →
      ptable_lookup spt (p + i * PGSIZE) = none →
      fullSuccess env (p + i * PGSIZE) →
      ptable_lookup (stack_walk env k spt maps p b).spt (p + i * PGSIZE) =
        some ⟨p + i * PGSIZE, true, true, env.junk_swaped (p + i * PGSIZE),
          none⟩ ∧
      ∃ kp, (⟨p + i * PGSIZE, kp, true, true⟩ : Mapping) ∈
        (stack_walk env k spt maps p b).maps := by
  intro k
  induction k with
  | zero => intro spt maps p b i hi; omega
  | succ k ih =>
    intro spt maps p b i hi hal habs hfs
    have haligned : pg_round_down (p + i * PGSIZE) = p + i * PGSIZE :=
      pg_round_down_aligned_add i hal
    cases i with
    | zero =>
      rw [show p + 0 * PGSIZE = p by ring] at habs hfs ⊢
      obtain ⟨hsome, hinst, hins⟩ := hfs
      obtain ⟨kp, hkp⟩ := Option.isSome_iff_exists.mp hsome
      have hlk : (ptable_lookup spt p).isSome = false := by
        simp [habs]
      simp only [stack_walk, hlk, Bool.false_eq_true, if_false, hkp,
        hinst, if_true, hins]
      constructor
      · rw [stack_walk_lookup_untouched env k _ _ _ _ p
          (by intro j hj
              rw [hal]
              have : 0 < PGSIZE := by simp [PGSIZE]
              omega)]
        exact ptable_lookup_cons_self spt (by rw [hal])
      · exact ⟨kp, stack_walk_mono_maps env k _ _ _ _ (List.mem_cons_self _ _)⟩
    | succ i' =>
      have harith : p + (i' + 1) * PGSIZE = p + PGSIZE + i' * PGSIZE := by ring
      have hal' : pg_round_down (p + PGSIZE) = p + PGSIZE := by
        have := pg_round_down_aligned_add 1 hal
        rwa [show p + 1 * PGSIZE = p + PGSIZE by ring] at this
      have hne : p ≠ pg_round_down (p + (i' + 1) * PGSIZE) := by
        rw [haligned]
        have : 0 < PGSIZE := by simp [PGSIZE]
        omega
      have habs' : ∀ spt1 : List SPTPage,
          ptable_lookup spt1 (p + (i' + 1) * PGSIZE) =
            ptable_lookup spt (p + (i' + 1) * PGSIZE) →
          ptable_lookup spt1 (p + PGSIZE + i' * PGSIZE) = none := by
        intro spt1 hq
        rw [← harith, hq, habs]
      have hfs' : fullSuccess env (p + PGSIZE + i' * PGSIZE) := by
        rwa [harith] at hfs
      have hout : ∀ (spt1 : List SPTPage) (maps1 : List Mapping) (b1 : Bool),
          ptable_lookup spt1 (p + (i' + 1) * PGSIZE) =
            ptable_lookup spt (p + (i' + 1) * PGSIZE) →
          ptable_lookup (stack_walk env k spt1 maps1 (p + PGSIZE) b1).spt
              (p + (i' + 1) * PGSIZE) =
            some ⟨p + (i' + 1) * PGSIZE, true, true,
              env.junk_swaped (p + (i' + 1) * PGSIZE), none⟩ ∧
          ∃ kp, (⟨p + (i' + 1) * PGSIZE, kp, true, true⟩ : Mapping) ∈
            (stack_walk env k spt1 maps1 (p + PGSIZE) b1).maps := by
        intro spt1 maps1 b1 hq
        have := ih spt1 maps1 (p + PGSIZE) b1 i' (by omega) hal'
          (habs' spt1 hq) hfs'
        rwa [show p + PGSIZE + i' * PGSIZE = p + (i' + 1) * PGSIZE by ring]
          at this
      simp only [stack_walk]
      split
      · exact hout spt maps _ rfl
      · cases env.frame_alloc p with
        | none => exact hout spt maps _ rfl
        | some kp =>
          by_cases hinst : env.install p = true
          · simp only [hinst, if_true]
            by_cases hins : env.insert_ok p = true
            · simp only [hins, if_true]
              exact hout _ _ _ (ptable_lookup_cons_ne spt hne)
            · simp only [Bool.not_eq_true] at hins
              simp only [hins, Bool.false_eq_true, if_false]
              exact hout spt _ _ rfl
          · simp only [Bool.not_eq_true] at hinst
            simp only [hinst, Bool.false_eq_true, if_false]
            exact hout spt maps _ rfl

/-! ### Reduction of the handler on the stack-growth paths -/

theorem pf_growth_eq (env : Env) (s : VMState) (f : Fault)
    (hnp : f.not_present = true) (hu : is_user_vaddr f.addr = true)
    (hl : ptable_lookup s.spt f.addr = none)
    (h1 : esp_minus_32 (bring_esp_from_thread_struct f.user f.not_present
        f.esp env.thread_esp) ≤ f.addr)
    (h2 : PHYS_BASE - STACK_LIMIT ≤ f.addr) :
    page_fault env s f =
      ⟨if (stack_walk env (walk_len (pg_round_down f.addr)) s.spt s.maps
            (pg_round_down f.addr) false).success
        then .resumed else .killed,
       (stack_walk env (walk_len (pg_round_down f.addr)) s.spt s.maps
         (pg_round_down f.addr) false).spt,
       (stack_walk env (walk_len (pg_round_down f.addr)) s.spt s.maps
         (pg_round_down f.addr) false).maps,
       bring_esp_from_thread_struct f.user f.not_present f.esp env.thread_esp,
       s.cnt + 1⟩ := by
  have hk := user_not_kernel hu
  have hwc : write_on_nonwritable_page s.spt f.addr true f.write = none := by
    simp [write_on_nonwritable_page]
  rw [hnp] at h1
  simp [page_fault, pf_core, exit_if_user_access_in_kernel, hk, hnp, hwc,
    pf_rest, hu, hl, h1, h2]

theorem pf_growth_reject (env : Env) (s : VMState) (f : Fault)
    (hnp : f.not_present = true) (hu : is_user_vaddr f.addr = true)
    (hl : ptable_lookup s.spt f.addr = none)
    (hcond : ¬(esp_minus_32 (bring_esp_from_thread_struct f.user f.not_present
        f.esp env.thread_esp) ≤ f.addr ∧ PHYS_BASE - STACK_LIMIT ≤ f.addr)) :
    page_fault env s f =
      ⟨.exited (-1), s.spt, s.maps,
       bring_esp_from_thread_struct f.user f.not_present f.esp env.thread_esp,
       s.cnt + 1⟩ := by
  have hk := user_not_kernel hu
  have hwc : write_on_nonwritable_page s.spt f.addr true f.write = none := by
    simp [write_on_nonwritable_page]
  rw [hnp] at hcond
  rcases not_and_or.mp hcond with h | h
  · simp [page_fault, pf_core, exit_if_user_access_in_kernel, hk, hnp, hwc,
      pf_rest, hu, hl, h]
  · simp [page_fault, pf_core, exit_if_user_access_in_kernel, hk, hnp, hwc,
      pf_rest, hu, hl, h]

/-! ### Claim theorems -/

/-- Claim C2: for a not-present fault on a user-space address with no
SPT entry for its page, the stack-growth path (the walk) is taken if
and only if the fault address is at least `esp − 32` (32-bit pointer
arithmetic, `esp` being the trap frame's stack pointer at the check,
i.e. after the recovery step the spec orders before dispatch) and at
least PHYS_BASE − STACK_LIMIT (8 MiB below the top of the user address
space); when either test fails the handler calls `system_exit(-1)` and
the SPT is unchanged. -/
theorem stack_growth_eligibility (env : Env) (s : VMState) (f : Fault)
    (hnp : f.not_present = true) (hu : is_user_vaddr f.addr = true)
    (hl : ptable_lookup s.spt f.addr = none) :
    ((esp_minus_32 (bring_esp_from_thread_struct f.user f.not_present
        f.esp env.thread_esp) ≤ f.addr ∧
      PHYS_BASE - STACK_LIMIT ≤ f.addr) →
      (page_fault env s f).outcome =
        (if (stack_walk env (walk_len (pg_round_down f.addr)) s.spt s.maps
              (pg_round_down f.addr) false).success
          then .resumed else .killed) ∧
      (page_fault env s f).spt =
        (stack_walk env (walk_len (pg_round_down f.addr)) s.spt s.maps
          (pg_round_down f.addr) false).spt) ∧
    (¬(esp_minus_32 (bring_esp_from_thread_struct f.user f.not_present
        f.esp env.thread_esp) ≤ f.addr ∧
       PHYS_BASE - STACK_LIMIT ≤ f.addr) →
      (page_fault env s f).outcome = .exited (-1) ∧
      (page_fault env s f).spt = s.spt) := by
  constructor
  · intro h
    rw [pf_growth_eq env s f hnp hu hl h.1 h.2]
    exact ⟨rfl, rfl⟩
  · intro h
    rw [pf_growth_reject env s f hnp hu hl h]
    exact ⟨rfl, rfl⟩

theorem stack_growth_eligibility_witness :
    (⟨0xBFFFE010, true, false, true, 0xBFFFE020⟩ : Fault).not_present = true ∧
    is_user_vaddr (0xBFFFE010 : Nat) = true ∧
    ptable_lookup st0.spt (0xBFFFE010 : Nat) = none ∧
    (esp_minus_32 (bring_esp_from_thread_struct true true 0xBFFFE020
        envOK.thread_esp) ≤ 0xBFFFE010 ∧
      PHYS_BASE - STACK_LIMIT ≤ (0xBFFFE010 : Nat)) ∧
    (page_fault envOK st0
      ⟨0xBFFFE010, true, false, true, 0xBFFFE020⟩).outcome = .resumed := by
  refine ⟨rfl, by decide, rfl, by decide, ?_⟩
  have h := (stack_growth_eligibility envOK st0
    ⟨0xBFFFE010, true, false, true, 0xBFFFE020⟩ rfl (by decide) rfl).1
    (by decide)
  rw [h.1]
  decide

/-- Claim C3, counterexample: a stack-growth walk in which the frame
allocator fails at the faulting page 0xBFFFD000 (which has no SPT
entry) but succeeds at the next page 0xBFFFE000 ends with the handler
reporting success: the fault is resolved (`resumed`), no process kill
happens, the failed page is left without an entry, and the later page
got one — the failure was masked because each iteration overwrites the
shared `success` flag.  The claim, which demands overall failure
regardless of later pages, is false on this input. -/
theorem stack_growth_masked_failure_cex :
    envAllocFail.frame_alloc 0xBFFFD000 = none ∧
    ptable_lookup st0.spt (0xBFFFD008 : Nat) = none ∧
    (page_fault envAllocFail st0
      ⟨0xBFFFD008, true, true, true, 0xBFFFD008⟩).outcome = .resumed ∧
    ptable_lookup (page_fault envAllocFail st0
      ⟨0xBFFFD008, true, true, true, 0xBFFFD008⟩).spt 0xBFFFD000 = none ∧
    (ptable_lookup (page_fault envAllocFail st0
      ⟨0xBFFFD008, true, true, true, 0xBFFFD008⟩).spt 0xBFFFE000).isSome
      = true := by
  refine ⟨rfl, rfl, ?_, ?_, ?_⟩ <;> decide

/-- Claim C3, amended: a stack-growth walk that hits a
frame-acquisition, mapping-installation or SPT-insertion failure on
some absent page reports overall failure to the resolver (which then
kills the process) provided the failure is not masked: no page
processed later in the same walk may be fully successful, and when the
failing step is a frame-acquisition failure (which leaves the shared
success flag untouched) no earlier page may have been fully successful
either.  Partial growth performed before the failure is not rolled
back: existing entries survive, and every earlier fully-successful
absent page keeps its newly created resident entry. -/
theorem stack_growth_unmasked_failure_kills (env : Env) (s : VMState)
    (f : Fault) (j : Nat)
    (hnp : f.not_present = true) (hu : is_user_vaddr f.addr = true)
    (hl : ptable_lookup s.spt f.addr = none)
    (h1 : esp_minus_32 (bring_esp_from_thread_struct f.user f.not_present
        f.esp env.thread_esp) ≤ f.addr)
    (h2 : PHYS_BASE - STACK_LIMIT ≤ f.addr)
    (hj : j < walk_len (pg_round_down f.addr))
    (habs : ptable_lookup s.spt (pg_round_down f.addr + j * PGSIZE) = none)
    (hfail : ¬ fullSuccess env (pg_round_down f.addr + j * PGSIZE))
    (hafter : ∀ i, j < i → i < walk_len (pg_round_down f.addr) →
        ¬ fullSuccess env (pg_round_down f.addr + i * PGSIZE))
    (hbefore : env.frame_alloc (pg_round_down f.addr + j * PGSIZE) = none →
        ∀ i, i < j → ¬ fullSuccess env (pg_round_down f.addr + i * PGSIZE)) :
    (page_fault env s f).outcome = .killed ∧
    (∀ e, e ∈ s.spt → e ∈ (page_fault env s f).spt) ∧
    (∀ i, i < j →
        ptable_lookup s.spt (pg_round_down f.addr + i * PGSIZE) = none →
        fullSuccess env (pg_round_down f.addr + i * PGSIZE) →
        ptable_lookup (page_fault env s f).spt
            (pg_round_down f.addr + i * PGSIZE) =
          some ⟨pg_round_down f.addr + i * PGSIZE, true, true,
            env.junk_swaped (pg_round_down f.addr + i * PGSIZE), none⟩) := by
  have hal : pg_round_down (pg_round_down f.addr) = pg_round_down f.addr :=
    pg_round_down_idem f.addr
  have hpg : (0 : Nat) < PGSIZE := by simp [PGSIZE]
  rw [pf_growth_eq env s f hnp hu hl h1 h2]
  set p0 := pg_round_down f.addr with hp0
  set K := walk_len p0 with hK
  have hsucc :
      (stack_walk env K s.spt s.maps p0 false).success = false := by
    have hKsplit : K = j + (1 + (K - j - 1)) := by omega
    set m := K - j - 1 with hm
    rw [hKsplit, stack_walk_append env j (1 + m) s.spt s.maps p0 false,
      stack_walk_append env 1 m _ _ _ _]
    set A := stack_walk env j s.spt s.maps p0 false with hA
    have hlkA : ptable_lookup A.spt (p0 + j * PGSIZE) = none := by
      rw [hA, stack_walk_lookup_untouched env j s.spt s.maps p0 false _
        (by intro i hi
            rw [pg_round_down_aligned_add j hal]
            simp only [PGSIZE]
            omega)]
      exact habs
    have hlkA' : (ptable_lookup A.spt (p0 + j * PGSIZE)).isSome = false := by
      simp [hlkA]
    have hrest : ∀ (spt1 : List SPTPage) (maps1 : List Mapping),
        (stack_walk env m spt1 maps1 (p0 + j * PGSIZE + 1 * PGSIZE)
          false).success = false := by
      intro spt1 maps1
      refine stack_walk_flag_false env m spt1 maps1 _ ?_
      intro i hi
      have := hafter (j + 1 + i) (by omega) (by omega)
      rwa [show p0 + (j + 1 + i) * PGSIZE
          = p0 + j * PGSIZE + 1 * PGSIZE + i * PGSIZE by ring] at this
    cases halloc : env.frame_alloc (p0 + j * PGSIZE) with
    | none =>
      have hAfalse : A.success = false := by
        rw [hA]
        exact stack_walk_flag_false env j s.spt s.maps p0 (hbefore halloc)
      simp only [stack_walk, hlkA', Bool.false_eq_true, if_false, halloc,
        hAfalse]
      exact hrest _ _
    | some kp =>
      by_cases hinst : env.install (p0 + j * PGSIZE) = true
      · have hins : env.insert_ok (p0 + j * PGSIZE) = false := by
          by_contra hc
          simp only [Bool.not_eq_false] at hc
          exact hfail ⟨by simp [halloc], hinst, hc⟩
        simp only [stack_walk, hlkA', Bool.false_eq_true, if_false, halloc,
          hinst, if_true, hins]
        exact hrest _ _
      · simp only [Bool.not_eq_true] at hinst
        simp only [stack_walk, hlkA', Bool.false_eq_true, if_false, halloc,
          hinst]
        exact hrest _ _
  refine ⟨by simp [hsucc], ?_, ?_⟩
  · intro e he
    exact stack_walk_mono_spt env K s.spt s.maps p0 false he
  · intro i hij habsi hfsi
    exact (stack_walk_creates env K s.spt s.maps p0 false i
      (by omega) hal habsi hfsi).1

theorem stack_growth_unmasked_failure_kills_witness :
    ptable_lookup st0.spt (0xBFFFE010 : Nat) = none ∧
    ¬ fullSuccess envNoAlloc (pg_round_down 0xBFFFE010 + 0 * PGSIZE) ∧
    (page_fault envNoAlloc st0
      ⟨0xBFFFE010, true, true, true, 0xBFFFE010⟩).outcome = .killed :=
  ⟨rfl, by decide,
    (stack_growth_unmasked_failure_kills envNoAlloc st0
      ⟨0xBFFFE010, true, true, true, 0xBFFFE010⟩ 0 rfl (by decide) rfl
      (by decide) (by decide) (by decide) rfl (by decide)
      (by intro i h1 h2
          have hw : walk_len (pg_round_down (0xBFFFE010 : Nat)) = 1 := by decide
          rw [hw] at h2
          omega)
      (by intro _ i hi; omega)).1⟩

/-- Claim C1: a fault with user context whose address lies at or above
PHYS_BASE makes the handler call `system_exit(-1)` immediately — the
fault is not resolved, the trap frame is untouched, and neither the
SPT nor the installed mappings change (only the diagnostic counter is
incremented). -/
theorem user_fault_on_kernel_address_exits (env : Env) (s : VMState)
    (f : Fault) (hu : f.user = true) (hk : is_kernel_vaddr f.addr = true) :
    page_fault env s f =
      ⟨.exited (-1), s.spt, s.maps, f.esp, s.cnt + 1⟩ := by
  simp [page_fault, pf_core, exit_if_user_access_in_kernel, hu, hk]

theorem user_fault_on_kernel_address_exits_witness :
    (⟨0xC0000010, true, false, true, 0xBFFF0000⟩ : Fault).user = true ∧
    is_kernel_vaddr (⟨0xC0000010, true, false, true, 0xBFFF0000⟩ : Fault).addr = true ∧
    page_fault envOK st0 ⟨0xC0000010, true, false, true, 0xBFFF0000⟩ =
      ⟨.exited (-1), st0.spt, st0.maps, 0xBFFF0000, st0.cnt + 1⟩ :=
  ⟨rfl, by decide,
    user_fault_on_kernel_address_exits envOK st0 _ rfl (by decide)⟩

/-- Claim C4, counterexample: a fault at `stack_top - 4` with the
saved stack pointer at `stack_top = 0xBFFFE000` and an empty SPT does
resolve, but creates two new resident entries, not exactly one — the
walk continues upward past the faulting page and also populates the
unmapped page above it.  Moreover, because the code never assigns the
entry's `swaped` field, under an environment whose malloc junk reads
as true the created entry comes out marked swap-backed rather than
zero-fill.  Both the claim's "exactly one new resident SPT entry" and
its implicit zero-fill backing are false on these inputs. -/
theorem stack_top_fault_two_entries_cex :
    ptable_lookup st0.spt (0xBFFFE000 - 4 : Nat) = none ∧
    (page_fault envOK st0
      ⟨0xBFFFE000 - 4, true, true, true, 0xBFFFE000⟩).outcome = .resumed ∧
    (page_fault envOK st0
      ⟨0xBFFFE000 - 4, true, true, true, 0xBFFFE000⟩).spt.length = 2 ∧
    ptable_lookup (page_fault envJunk st0
      ⟨0xBFFFE000 - 4, true, true, true, 0xBFFFE000⟩).spt 0xBFFFD000 =
      some ⟨0xBFFFD000, true, true, true, none⟩ := by
  refine ⟨rfl, ?_, ?_, ?_⟩ <;> decide

/-- Claim C4, amended: a fault at `stack_top - 4` with the saved stack
pointer `stack_top` and no SPT entry for the containing page resolves
successfully — creating exactly one new SPT entry, marked resident and
writable with no backing file, its `swaped` discriminator left holding
whatever value malloc's memory had, and a writable hardware mapping
installed from a zero-filled frame — provided frame allocation,
mapping installation and SPT insertion succeed for that page, the page
lies below the topmost user page (which the walk never reaches), and
every walk page above it already has an SPT entry (otherwise the walk
also populates those pages, creating more than one entry). -/
theorem stack_top_fault_resolves (env : Env) (s : VMState)
    (stack_top : Nat) (f : Fault)
    (haddr : f.addr = stack_top - 4) (hesp : f.esp = stack_top)
    (huser : f.user = true) (hnp : f.not_present = true)
    (h32 : 32 ≤ stack_top)
    (hu : is_user_vaddr f.addr = true)
    (hlim : PHYS_BASE - STACK_LIMIT ≤ f.addr)
    (htop : f.addr < PHYS_BASE - PGSIZE)
    (hl : ptable_lookup s.spt f.addr = none)
    (habove : ∀ i, 0 < i → i < walk_len (pg_round_down f.addr) →
        (ptable_lookup s.spt (pg_round_down f.addr + i * PGSIZE)).isSome
          = true)
    (hfs : fullSuccess env (pg_round_down f.addr)) :
    (page_fault env s f).outcome = .resumed ∧
    (page_fault env s f).spt =
      ⟨pg_round_down f.addr, true, true,
        env.junk_swaped (pg_round_down f.addr), none⟩ :: s.spt ∧
    ∃ kp, (page_fault env s f).maps =
      ⟨pg_round_down f.addr, kp, true, true⟩ :: s.maps := by
  have hal : pg_round_down (pg_round_down f.addr) = pg_round_down f.addr :=
    pg_round_down_idem f.addr
  have hub : f.addr < PHYS_BASE := by
    simpa [is_user_vaddr, decide_eq_true_eq] using hu
  have hstlt : stack_top < 4294967296 := by
    rw [haddr] at hub
    simp only [PHYS_BASE] at hub
    omega
  have h1 : esp_minus_32 (bring_esp_from_thread_struct f.user f.not_present
      f.esp env.thread_esp) ≤ f.addr := by
    have hesp' : bring_esp_from_thread_struct f.user f.not_present f.esp
        env.thread_esp = f.esp := by
      simp [bring_esp_from_thread_struct, huser]
    rw [hesp', hesp, esp_minus_32_eq h32 hstlt, haddr]
    omega
  rw [pf_growth_eq env s f hnp hu hl h1 hlim]
  have hp0le : pg_round_down f.addr ≤ f.addr := by
    simp only [pg_round_down, PGSIZE]
    omega
  have hKeq : walk_len (pg_round_down f.addr)
      = 1 + (walk_len (pg_round_down f.addr) - 1) := by
    simp only [walk_len, pg_round_down, PHYS_BASE, PGSIZE] at *
    omega
  have hlk0 : ptable_lookup s.spt (pg_round_down f.addr) = none := by
    rw [ptable_lookup_congr s.spt hal]
    exact hl
  obtain ⟨hsome, hinst, hins⟩ := hfs
  obtain ⟨kp, hkp⟩ := Option.isSome_iff_exists.mp hsome
  have hstep : stack_walk env 1 s.spt s.maps (pg_round_down f.addr) false =
      ⟨true, ⟨pg_round_down f.addr, true, true,
          env.junk_swaped (pg_round_down f.addr), none⟩ :: s.spt,
        ⟨pg_round_down f.addr, kp, true, true⟩ :: s.maps⟩ := by
    simp [stack_walk, hlk0, hkp, hinst, hins]
  have hpres : ∀ i, i < walk_len (pg_round_down f.addr) - 1 →
      (ptable_lookup
        (⟨pg_round_down f.addr, true, true,
          env.junk_swaped (pg_round_down f.addr), none⟩ :: s.spt)
        (pg_round_down f.addr + 1 * PGSIZE + i * PGSIZE)).isSome = true := by
    intro i hi
    have harith : pg_round_down f.addr + 1 * PGSIZE + i * PGSIZE
        = pg_round_down f.addr + (1 + i) * PGSIZE := by ring
    rw [harith, ptable_lookup_cons_ne s.spt
      (by rw [pg_round_down_aligned_add (1 + i) hal]
          simp only [PGSIZE]
          omega)]
    exact habove (1 + i) (by omega) (by omega)
  rw [hKeq, stack_walk_append env 1 (walk_len (pg_round_down f.addr) - 1)
    s.spt s.maps (pg_round_down f.addr) false, hstep,
    stack_walk_all_present env (walk_len (pg_round_down f.addr) - 1) _ _ _ _
      hpres]
  exact ⟨rfl, rfl, kp, rfl⟩

theorem stack_top_fault_resolves_witness :
    32 ≤ (0xBFFFF000 : Nat) ∧
    is_user_vaddr (0xBFFFF000 - 4 : Nat) = true ∧
    PHYS_BASE - STACK_LIMIT ≤ (0xBFFFF000 - 4 : Nat) ∧
    (0xBFFFF000 - 4 : Nat) < PHYS_BASE - PGSIZE ∧
    ptable_lookup st0.spt (0xBFFFF000 - 4 : Nat) = none ∧
    fullSuccess envOK (pg_round_down (0xBFFFF000 - 4)) ∧
    (page_fault envOK st0
      ⟨0xBFFFF000 - 4, true, true, true, 0xBFFFF000⟩).outcome = .resumed ∧
    (page_fault envOK st0
      ⟨0xBFFFF000 - 4, true, true, true, 0xBFFFF000⟩).spt =
      [⟨pg_round_down (0xBFFFF000 - 4), true, true,
        envOK.junk_swaped (pg_round_down (0xBFFFF000 - 4)), none⟩] := by
  have h := stack_top_fault_resolves envOK st0 0xBFFFF000
    ⟨0xBFFFF000 - 4, true, true, true, 0xBFFFF000⟩ rfl rfl rfl rfl
    (by decide) (by decide) (by decide) (by decide) rfl
    (by intro i h1 h2
        have hw : walk_len (pg_round_down (0xBFFFF000 - 4 : Nat)) = 1 := by
          decide
        rw [hw] at h2
        omega)
    (by decide)
  exact ⟨by decide, by decide, by decide, by decide, rfl, by decide,
    h.1, h.2.1⟩

/-- Claim C5, counterexample: with the SPT holding a resident stack
page at 0xBFFFD000 and an eligible not-present fault at 0xBFFFC010
(one page below it), the handler resolves the fault but, contrary to
the claimed walk "from the faulting page downward until the topmost
already-mapped stack page (exclusive)", it walks upward: it skips the
mapped page 0xBFFFD000 and creates a new entry at 0xBFFFE000 — above
the already-mapped page — while creating nothing at 0xBFFFB000, the
page below the faulting one.  The claimed `backing = ZeroFill` marking
is also false: the code never assigns the entry's `swaped`
discriminator, so under an environment whose malloc junk reads as true
the entry created at the faulting page comes out marked swap-backed. -/
theorem stack_walk_direction_cex :
    ptable_lookup stMid.spt (0xBFFFC010 : Nat) = none ∧
    (ptable_lookup stMid.spt (0xBFFFD000 : Nat)).isSome = true ∧
    (page_fault envOK stMid
      ⟨0xBFFFC010, true, true, true, 0xBFFFC018⟩).outcome = .resumed ∧
    (ptable_lookup (page_fault envOK stMid
      ⟨0xBFFFC010, true, true, true, 0xBFFFC018⟩).spt 0xBFFFE000).isSome
      = true ∧
    ptable_lookup (page_fault envOK stMid
      ⟨0xBFFFC010, true, true, true, 0xBFFFC018⟩).spt 0xBFFFB000 = none ∧
    ptable_lookup (page_fault envJunk stMid
      ⟨0xBFFFC010, true, true, true, 0xBFFFC018⟩).spt 0xBFFFC000 =
      some ⟨0xBFFFC000, true, true, true, none⟩ := by
  refine ⟨rfl, rfl, ?_, ?_, ?_, ?_⟩ <;> decide

/-- Claim C5, amended: on an eligible stack-growth fault the policy
walks page by page from the page containing the fault address upward
(toward higher addresses) up to, but excluding, the topmost user page
at PHYS_BASE − PGSIZE.  Every page of that range absent from the SPT
whose frame allocation, mapping installation and SPT insertion succeed
receives a writable hardware mapping backed by a zero-filled frame and
a new SPT entry marked resident and writable with no backing file,
whose `swaped` discriminator is left holding whatever value malloc's
memory had (the code never initializes it); pages already present in
the SPT are skipped (treated as success, not error); and pages outside
the walked range — in particular every page below the faulting one —
are left untouched. -/
theorem stack_walk_upward_fills (env : Env) (s : VMState) (f : Fault)
    (hnp : f.not_present = true) (hu : is_user_vaddr f.addr = true)
    (hl : ptable_lookup s.spt f.addr = none)
    (h1 : esp_minus_32 (bring_esp_from_thread_struct f.user f.not_present
        f.esp env.thread_esp) ≤ f.addr)
    (h2 : PHYS_BASE - STACK_LIMIT ≤ f.addr) :
    (∀ i, i < walk_len (pg_round_down f.addr) →
        ptable_lookup s.spt (pg_round_down f.addr + i * PGSIZE) = none →
        fullSuccess env (pg_round_down f.addr + i * PGSIZE) →
        ptable_lookup (page_fault env s f).spt
            (pg_round_down f.addr + i * PGSIZE) =
          some ⟨pg_round_down f.addr + i * PGSIZE, true, true,
            env.junk_swaped (pg_round_down f.addr + i * PGSIZE), none⟩ ∧
        ∃ kp, (⟨pg_round_down f.addr + i * PGSIZE, kp, true, true⟩ : Mapping)
          ∈ (page_fault env s f).maps) ∧
    (∀ e, e ∈ s.spt → e ∈ (page_fault env s f).spt) ∧
    (∀ q, (∀ i, i < walk_len (pg_round_down f.addr) →
        pg_round_down f.addr + i * PGSIZE ≠ pg_round_down q) →
        ptable_lookup (page_fault env s f).spt q = ptable_lookup s.spt q) := by
  have hal : pg_round_down (pg_round_down f.addr) = pg_round_down f.addr :=
    pg_round_down_idem f.addr
  rw [pf_growth_eq env s f hnp hu hl h1 h2]
  refine ⟨?_, ?_, ?_⟩
  · intro i hi habsi hfsi
    exact stack_walk_creates env (walk_len (pg_round_down f.addr)) s.spt
      s.maps (pg_round_down f.addr) false i hi hal habsi hfsi
  · intro e he
    exact stack_walk_mono_spt env (walk_len (pg_round_down f.addr)) s.spt
      s.maps (pg_round_down f.addr) false he
  · intro q hq
    exact stack_walk_lookup_untouched env (walk_len (pg_round_down f.addr))
      s.spt s.maps (pg_round_down f.addr) false q hq

theorem stack_walk_upward_fills_witness :
    ptable_lookup st0.spt (pg_round_down 0xBFFFDCC0 + 0 * PGSIZE) = none ∧
    fullSuccess envOK (pg_round_down 0xBFFFDCC0 + 0 * PGSIZE) ∧
    ptable_lookup (page_fault envOK st0
        ⟨0xBFFFDCC0, true, false, true, 0xBFFFDCC8⟩).spt
        (pg_round_down 0xBFFFDCC0 + 0 * PGSIZE) =
      some ⟨pg_round_down 0xBFFFDCC0 + 0 * PGSIZE, true, true,
        envOK.junk_swaped (pg_round_down 0xBFFFDCC0 + 0 * PGSIZE), none⟩ :=
  ⟨rfl, by decide,
    ((stack_walk_upward_fills envOK st0
      ⟨0xBFFFDCC0, true, false, true, 0xBFFFDCC8⟩ rfl (by decide) rfl
      (by decide) (by decide)).1 0 (by decide) rfl (by decide)).1⟩

/-- Claim C6: a write fault on a present user-space page whose SPT
entry is marked non-writable terminates the process with status −1,
leaving the SPT unchanged. -/
theorem write_to_readonly_present_page_exits (env : Env) (s : VMState)
    (f : Fault) (p : SPTPage)
    (hu : is_user_vaddr f.addr = true) (hnp : f.not_present = false)
    (hw : f.write = true) (hl : ptable_lookup s.spt f.addr = some p)
    (hro : p.writable = false) :
    (page_fault env s f).outcome = .exited (-1) ∧
    (page_fault env s f).spt = s.spt := by
  have hk := user_not_kernel hu
  simp [page_fault, pf_core, exit_if_user_access_in_kernel,
    write_on_nonwritable_page, hu, hnp, hw, hl, hro, hk]

theorem write_to_readonly_present_page_exits_witness :
    is_user_vaddr (0x08048010 : Nat) = true ∧
    ptable_lookup [⟨0x08048000, false, true, false, some 7⟩] (0x08048010 : Nat) =
      some ⟨0x08048000, false, true, false, some 7⟩ ∧
    (page_fault envOK ⟨[⟨0x08048000, false, true, false, some 7⟩], [], 0⟩
        ⟨0x08048010, false, true, true, 0xBFFFF000⟩).outcome = .exited (-1) :=
  ⟨by decide, by decide,
    (write_to_readonly_present_page_exits envOK
      ⟨[⟨0x08048000, false, true, false, some 7⟩], [], 0⟩
      ⟨0x08048010, false, true, true, 0xBFFFF000⟩
      ⟨0x08048000, false, true, false, some 7⟩
      (by decide) rfl rfl (by decide) rfl).1⟩

/-- Claim C8: the trap frame's stack pointer is overwritten with the
faulting thread's saved stack pointer exactly when the fault has
kernel context, cause not-present, and the recorded stack pointer lies
at or below PHYS_BASE − STACK_LIMIT; in every other case the handler
leaves the trap frame's stack pointer unchanged. -/
theorem kernel_esp_recovery (env : Env) (s : VMState) (f : Fault) :
    (page_fault env s f).esp =
      if f.user = false ∧ f.not_present = true ∧ f.esp ≤ PHYS_BASE - STACK_LIMIT
      then env.thread_esp else f.esp := by
  have hrest : ∀ spt maps, (pf_rest env spt maps f).esp =
      bring_esp_from_thread_struct f.user f.not_present f.esp env.thread_esp := by
    intro spt maps
    simp only [pf_rest]
    split
    · split
      · split <;> rfl
      · split <;> rfl
    · rfl
  simp only [page_fault, pf_core]
  split
  · next hexit =>
    simp only [exit_if_user_access_in_kernel, Bool.and_eq_true] at hexit
    simp [hexit.2]
  · split
    · next o hwc =>
      simp only [write_on_nonwritable_page] at hwc
      by_cases hg : is_user_vaddr f.addr && !f.not_present && f.write
      · have : f.not_present = false := by
          simp only [Bool.and_eq_true, Bool.not_eq_true'] at hg
          exact hg.1.2
        simp [this]
      · simp [hg] at hwc
    · simp only [hrest, bring_esp_from_thread_struct]
      split
      · next hb =>
        simp only [Bool.and_eq_true, Bool.not_eq_true', decide_eq_true_eq] at hb
        simp [hb.1.1, hb.1.2, hb.2]
      · next hb =>
        simp only [Bool.and_eq_true, Bool.not_eq_true', decide_eq_true_eq,
          not_and] at hb
        split
        · next hc => exact absurd hc.2.2 (hb ⟨hc.1, hc.2.1⟩)
        · rfl

/-- Claim C9: every handler invocation increments the fault counter by
exactly one, and the counter's initial value has no effect on the
handler's decisions: runs that differ only in the initial counter
agree on outcome, SPT, mappings, and final stack pointer. -/
theorem fault_counter_diagnostic_only (env : Env) (s : VMState)
    (f : Fault) (c' : Nat) :
    (page_fault env s f).cnt = s.cnt + 1 ∧
    (page_fault env s f).outcome = (page_fault env ⟨s.spt, s.maps, c'⟩ f).outcome ∧
    (page_fault env s f).spt = (page_fault env ⟨s.spt, s.maps, c'⟩ f).spt ∧
    (page_fault env s f).maps = (page_fault env ⟨s.spt, s.maps, c'⟩ f).maps ∧
    (page_fault env s f).esp = (page_fault env ⟨s.spt, s.maps, c'⟩ f).esp :=
  ⟨rfl, rfl, rfl, rfl, rfl⟩

/-- Claim C10: the write-protection check dereferences the SPT lookup
result unconditionally.  Whenever an SPT entry exists for the faulting
page, the null branch is unreachable (the handler never performs the
null dereference); on a present-page write fault at a user address
with no SPT entry, the handler dereferences a null pointer (shown at
an explicit input). -/
theorem write_check_lookup_deref :
    (∀ (env : Env) (s : VMState) (f : Fault),
        is_user_vaddr f.addr = true → f.not_present = false →
        f.write = true → (ptable_lookup s.spt f.addr).isSome = true →
        (page_fault env s f).outcome ≠ .nullDeref) ∧
    (page_fault envOK st0 ⟨0x08048000, false, true, true, 0xBFFFF000⟩).outcome
      = .nullDeref := by
  constructor
  · intro env s f hu hnp hw hsome
    obtain ⟨p, hp⟩ := Option.isSome_iff_exists.mp hsome
    have hk := user_not_kernel hu
    cases hpw : p.writable
    · simp [page_fault, pf_core, exit_if_user_access_in_kernel,
        write_on_nonwritable_page, hu, hnp, hw, hp, hpw, hk]
    · simp [page_fault, pf_core, exit_if_user_access_in_kernel,
        write_on_nonwritable_page, pf_rest, hu, hnp, hw, hp, hpw, hk]
  · rfl

theorem write_check_lookup_deref_witness :
    is_user_vaddr (⟨0x08048123, false, true, true, 0xBFFFF000⟩ : Fault).addr = true ∧
    (ptable_lookup stCode.spt
      (⟨0x08048123, false, true, true, 0xBFFFF000⟩ : Fault).addr).isSome = true ∧
    (page_fault envOK stCode
      ⟨0x08048123, false, true, true, 0xBFFFF000⟩).outcome ≠ .nullDeref :=
  ⟨by decide, by decide,
    write_check_lookup_deref.1 envOK stCode
      ⟨0x08048123, false, true, true, 0xBFFFF000⟩
      (by decide) rfl rfl (by decide)⟩

/-- Claim C7: for a not-present user fault whose page is found in the
SPT, the resolver dispatches on the backing: swap-backed entries go to
the swap loader and the others (file-backed and zero-fill, which share
the non-swap loader whose zero-fill behaviour is modelled from the
spec by `page_load_file_content`) to the file loader, the fault
resolving exactly when the loader succeeds; an entry that is already
resident is treated as unresolved and the process is killed via the
failure-reporting path. -/
theorem demand_load_dispatch (env : Env) (s : VMState) (f : Fault)
    (p : SPTPage) (hnp : f.not_present = true)
    (hu : is_user_vaddr f.addr = true)
    (hl : ptable_lookup s.spt f.addr = some p) :
    (p.loaded = false → p.swaped = true →
      (page_fault env s f).outcome =
        (if env.load_swap p then .resumed else .killed)) ∧
    (p.loaded = false → p.swaped = false →
      (page_fault env s f).outcome =
        (if env.load_file p then .resumed else .killed)) ∧
    (p.loaded = true → (page_fault env s f).outcome = .killed) ∧
    (p.swaped = false → p.file = none →
      page_load_file_content p = .zeroed) := by
  have hk := user_not_kernel hu
  have hwc : write_on_nonwritable_page s.spt f.addr true f.write = none := by
    simp [write_on_nonwritable_page]
  refine ⟨?_, ?_, ?_, ?_⟩
  · intro hld hsw
    simp [page_fault, pf_core, exit_if_user_access_in_kernel, hk, hwc,
      pf_rest, hu, hnp, hl, hld, hsw]
  · intro hld hsw
    simp [page_fault, pf_core, exit_if_user_access_in_kernel, hk, hwc,
      pf_rest, hu, hnp, hl, hld, hsw]
  · intro hld
    simp [page_fault, pf_core, exit_if_user_access_in_kernel, hk, hwc,
      pf_rest, hu, hnp, hl, hld]
  · intro _ hf
    simp [page_load_file_content, hf]

theorem demand_load_dispatch_witness :
    (⟨0x08050000, true, false, true, 0xBFFFF000⟩ : Fault).not_present = true ∧
    is_user_vaddr (0x08050000 : Nat) = true ∧
    ptable_lookup [⟨0x08050000, true, false, true, none⟩] (0x08050000 : Nat) =
      some ⟨0x08050000, true, false, true, none⟩ ∧
    (page_fault envOK ⟨[⟨0x08050000, true, false, true, none⟩], [], 0⟩
        ⟨0x08050000, true, false, true, 0xBFFFF000⟩).outcome =
      (if envOK.load_swap ⟨0x08050000, true, false, true, none⟩
       then .resumed else .killed) :=
  ⟨rfl, by decide, by decide,
    (demand_load_dispatch envOK ⟨[⟨0x08050000, true, false, true, none⟩], [], 0⟩
      ⟨0x08050000, true, false, true, 0xBFFFF000⟩
      ⟨0x08050000, true, false, true, none⟩
      rfl (by decide) (by decide)).1 rfl rfl⟩

end PintosVM
